import Mathlib

/-!
Verification of the Saskatoon hospital tracker snapshot store (src/app.py).

The file embeds the data model and the operations of the two Flask
variants contained in app.py:

* the mock variant: global `hospital_data` (lines 25-29), refresh
  function `extract_simple_data` (lines 31-90), scheduler loop
  `background_updater` (lines 92-96), endpoints `api_hospitals`
  (lines 345-348) and `api_status` (lines 350-357);
* the file-load variant (appended server.py, lines 371-737):
  `load_hospital_data`, `api_hospitals` (lines 704-711) and
  `api_status` (lines 713-731).

Modelling conventions:

* Python dictionaries become association lists `List (String × _)`
  (insertion ordered, unique keys in all values occurring here);
* a dictionary key that may be absent becomes an `Option` field that
  the JSON serializer omits when `none`;
* a Python value that may be `None` becomes an `Option` field that the
  JSON serializer renders as JSON null;
* `datetime.now()` readings become a `Nat` clock value passed in
  explicitly; `isoformat` is order preserving on capture times, so the
  monotonicity claims compare the `Nat` readings directly, and the
  human readable `strftime` text is embedded as `toString` of the
  reading (no claim depends on the text format);
* Python integers are unbounded, so counts are `Int`;
* the try/except body of `extract_simple_data` is parametrised by the
  outcome of the producer (the inlined mock construction in the source,
  which an external collaborator may replace): `Except String` carries
  either the candidate snapshot or the exception message.
-/

/-- JSON values, as produced by `flask.jsonify` / `json` on the Python
data appearing in app.py. -/
inductive Json where
  | null : Json
  | bool (b : Bool) : Json
  | num (n : Int) : Json
  | str (s : String) : Json
  | arr (xs : List Json) : Json
  | obj (fields : List (String × Json)) : Json

/-- One facility record, the value type of the `hospitals` dictionary
built in `extract_simple_data` (src/app.py lines 41-81).
`admittedInED` and `activeConsults` are `None` for Saskatoon City
Hospital, hence `Option Int`; `emergencyDataNote` is a key present only
in that record, hence `Option String` with omission on `none`. -/
structure Facility where
  shortName : String
  totalOccupied : Int
  totalPlanned : Int
  totalOvercapacity : Int
  totalVacant : Int
  totalALC : Int
  admittedInED : Option Int
  activeConsults : Option Int
  emergencyDataNote : Option String := none
deriving DecidableEq, Repr

/-- The process-wide snapshot value held in the global `hospital_data`
slot. The initial dictionary (src/app.py lines 25-29) has no
`lastUpdated` key, hence `Option Nat` with omission on `none`. -/
structure HospitalData where
  timestamp : String
  lastUpdated : Option Nat := none
  hospitals : List (String × Facility)
  status : String
deriving DecidableEq, Repr

/-- Initial value of the global slot (src/app.py lines 25-29). -/
def hospital_data : HospitalData :=
  { timestamp := "Data loading..."
    lastUpdated := none
    hospitals := []
    status := "initializing" }

/-- Royal University Hospital record, src/app.py lines 41-50. -/
def ruh : Facility :=
  { shortName := "RUH"
    totalOccupied := 468
    totalPlanned := 457
    totalOvercapacity := 25
    totalVacant := 14
    totalALC := 43
    admittedInED := some 19
    activeConsults := some 24 }

/-- St. Paul's Hospital record, src/app.py lines 51-60. -/
def sph : Facility :=
  { shortName := "SPH"
    totalOccupied := 256
    totalPlanned := 254
    totalOvercapacity := 25
    totalVacant := 23
    totalALC := 41
    admittedInED := some 8
    activeConsults := some 26 }

/-- Jim Pattison's Children Hospital record, src/app.py lines 61-70. -/
def jpch : Facility :=
  { shortName := "JPCH"
    totalOccupied := 172
    totalPlanned := 195
    totalOvercapacity := 3
    totalVacant := 26
    totalALC := 1
    admittedInED := some 0
    activeConsults := some 0 }

/-- Saskatoon City Hospital record, src/app.py lines 71-81: the one
facility whose emergency-department counts are the Python value
`None`. -/
def sch : Facility :=
  { shortName := "SCH"
    totalOccupied := 150
    totalPlanned := 189
    totalOvercapacity := 0
    totalVacant := 39
    totalALC := 8
    admittedInED := none
    activeConsults := none
    emergencyDataNote :=
      some "Emergency department data not available in source PDF" }

/-- The mock snapshot built inside the try block of
`extract_simple_data` (src/app.py lines 37-84), at clock reading
`now`. -/
def mock_data (now : Nat) : HospitalData :=
  { timestamp := toString now
    lastUpdated := some now
    hospitals :=
      [ ("Royal University Hospital", ruh)
      , ("St. Paul\x27s Hospital", sph)
      , ("Jim Pattison\x27s Children Hospital", jpch)
      , ("Saskatoon City Hospital", sch) ]
    status := "success" }

/-- The refresh operation, src/app.py lines 31-90. The try block
produces a candidate snapshot (in the source: the inlined mock
construction; abstractly: any producer supplied in its place) and then
performs the single assignment `hospital_data = mock_data` (line 86).
The except branch (lines 89-90) only logs, leaving the global slot
unchanged. `producer` is the outcome of running the try-block body up
to that assignment. -/
def extract_simple_data (producer : Except String HospitalData)
    (cur : HospitalData) : HospitalData :=
  match producer with
  | Except.ok candidate => candidate
  | Except.error _ => cur

/-- The producer actually wired in the source: the mock construction of
lines 37-84, whose body cannot raise; it always succeeds with
`mock_data now`. -/
def mockProducer (now : Nat) : Except String HospitalData :=
  Except.ok (mock_data now)

/-- The scheduler loop `background_updater` (src/app.py lines 92-96),
unrolled over a finite list of producer outcomes, one per tick.
`t` is the clock at which the current tick fires; each iteration
performs the refresh, then sleeps 900 seconds (15 minutes) before the
next tick. Returns the final slot value and the firing time of every
tick. -/
def background_updater :
    List (Except String HospitalData) → Nat → HospitalData →
      HospitalData × List Nat
  | [], _, cur => (cur, [])
  | o :: rest, t, cur =>
      let next := background_updater rest (t + 900) (extract_simple_data o cur)
      (next.1, t :: next.2)

/-- A sequence of refreshes through the actually wired mock producer,
one per clock reading in `ts`, listing every successively installed
slot value. -/
def refreshSeq (cur : HospitalData) : List Nat → List HospitalData
  | [] => []
  | t :: ts =>
      let s := extract_simple_data (mockProducer t) cur
      s :: refreshSeq s ts

/-- Python `None` under JSON encoding: `null`; a present value encodes
as a number. -/
def optIntJson : Option Int → Json
  | none => Json.null
  | some n => Json.num n

/-- JSON encoding of one facility dictionary, key for key in the order
of src/app.py lines 41-81. The `emergencyDataNote` key exists only in
the record that carries it. -/
def facilityJson (f : Facility) : Json :=
  Json.obj
    ([ ("shortName", Json.str f.shortName)
     , ("totalOccupied", Json.num f.totalOccupied)
     , ("totalPlanned", Json.num f.totalPlanned)
     , ("totalOvercapacity", Json.num f.totalOvercapacity)
     , ("totalVacant", Json.num f.totalVacant)
     , ("totalALC", Json.num f.totalALC)
     , ("admittedInED", optIntJson f.admittedInED)
     , ("activeConsults", optIntJson f.activeConsults) ]
     ++ (match f.emergencyDataNote with
         | some s => [("emergencyDataNote", Json.str s)]
         | none => []))

/-- JSON encoding of the snapshot dictionary, as `jsonify` serializes
the global: the `lastUpdated` key is absent from the initial dictionary
and present after a refresh. -/
def hospitalDataJson (d : HospitalData) : Json :=
  Json.obj
    ([ ("timestamp", Json.str d.timestamp) ]
     ++ (match d.lastUpdated with
         | some t => [("lastUpdated", Json.str (toString t))]
         | none => [])
     ++ [ ("hospitals",
            Json.obj (d.hospitals.map (fun p => (p.1, facilityJson p.2))))
        , ("status", Json.str d.status) ])

/-- Field access on a serialized JSON object (what a client reading the
response body sees for a key; `none` means the key is omitted). -/
def jGet : Json → String → Option Json
  | Json.obj fields, k => fields.lookup k
  | _, _ => none

/-- Endpoint `GET /api/hospitals` of the mock variant (src/app.py lines
345-348): HTTP status paired with the body `jsonify(hospital_data)`. -/
def api_hospitals (cur : HospitalData) : Nat × Json :=
  (200, hospitalDataJson cur)

/-- Endpoint `GET /api/status` of the mock variant (src/app.py lines
350-357): constant body apart from the wall-clock reading. -/
def api_status (now : Nat) : Nat × Json :=
  (200, Json.obj
    [ ("status", Json.str "ok")
    , ("timestamp", Json.str (toString now))
    , ("data_available", Json.bool true) ])

/-- Endpoint `GET /api/hospitals` of the file-load variant (src/app.py
lines 704-711). `loaded` is the result of `load_hospital_data`: the
parsed JSON object when a data or backup file loads, `none` when no
file is present or loadable. -/
def api_hospitals_file (loaded : Option (List (String × Json))) :
    Nat × Json :=
  match loaded with
  | some data => (200, Json.obj data)
  | none =>
      (503, Json.obj [("error", Json.str "Hospital data not available")])

/-- Python `data.get(k)`: the value under `k`, or `None` (JSON null)
when the key is absent. -/
def pyGet (data : List (String × Json)) (k : String) : Json :=
  (data.lookup k).getD Json.null

/-- Python `len(data.get(.hospitals., \x7b\x7d))` on the loaded object;
counts the keys of the nested object (a non-object value there would
raise in Python; no loaded file in scope carries one). -/
def hospitalCount (data : List (String × Json)) : Nat :=
  match data.lookup "hospitals" with
  | some (Json.obj fields) => fields.length
  | _ => 0

/-- Endpoint `GET /api/status` of the file-load variant (src/app.py
lines 713-731). `dataFileExists` and `backupFileExists` embed the two
`os.path.exists` probes; `now` the `datetime.now().isoformat()`
reading. -/
def api_status_file (loaded : Option (List (String × Json)))
    (dataFileExists backupFileExists : Bool) (now : Nat) : Nat × Json :=
  let base :=
    [ ("status", Json.str (if loaded.isSome then "ok" else "error"))
    , ("dataAvailable", Json.bool loaded.isSome)
    , ("lastCheck", Json.str (toString now))
    , ("dataFile", Json.bool dataFileExists)
    , ("backupFile", Json.bool backupFileExists) ]
  match loaded with
  | some data =>
      (200, Json.obj
        (base ++
          [ ("dataTimestamp", pyGet data "timestamp")
          , ("lastUpdated", pyGet data "lastUpdated")
          , ("hospitalCount", Json.num (hospitalCount data)) ]))
  | none => (200, Json.obj base)

/-- One step of the interleaving model for one refresh racing any
number of snapshot reads. `read` is a handler reading the global slot
(src/app.py line 348); `swap` is the single assignment
`hospital_data = mock_data` (src/app.py line 86), which replaces the
whole reference in one step rather than mutating fields in place. -/
inductive SlotEvent where
  | read : SlotEvent
  | swap : SlotEvent
deriving DecidableEq, Repr

/-- Run an interleaving over the slot: the slot starts at the first
`HospitalData` argument, every `swap` installs `post`, and the returned
list collects the value each `read` observes, in order. -/
def observeReads (post : HospitalData) :
    List SlotEvent → HospitalData → List HospitalData
  | [], _ => []
  | SlotEvent.read :: es, cur => cur :: observeReads post es cur
  | SlotEvent.swap :: es, _ => observeReads post es post

/-- Validation predicate following the words of the specification
(section 7: non-null required fields, non-negative counts), stated on
one facility record. Written from the spec, to be compared against
what `extract_simple_data` actually does. -/
def specValidFacility (f : Facility) : Bool :=
  (0 ≤ f.totalOccupied) && (0 ≤ f.totalPlanned) &&
  (0 ≤ f.totalOvercapacity) && (0 ≤ f.totalVacant) && (0 ≤ f.totalALC) &&
  (match f.admittedInED with | some n => 0 ≤ n | none => true) &&
  (match f.activeConsults with | some n => 0 ≤ n | none => true)

/-- Validation predicate following the words of the specification for a
whole candidate snapshot: every facility passes `specValidFacility`.
Written from the spec, not from the source: the source performs no such
check before the assignment on line 86. -/
def specValid (d : HospitalData) : Bool :=
  d.hospitals.all (fun p => specValidFacility p.2)

/-- A candidate snapshot with a negative occupancy count: it fails the
validation the specification prescribes, yet nothing in
`extract_simple_data` rejects it. -/
def badCandidate : HospitalData :=
  { timestamp := "bad"
    lastUpdated := some 1
    hospitals :=
      [ ("Royal University Hospital",
          { shortName := "RUH"
            totalOccupied := -1
            totalPlanned := 457
            totalOvercapacity := 0
            totalVacant := 0
            totalALC := 0
            admittedInED := none
            activeConsults := none }) ]
    status := "success" }

/-- States the global slot can reach in the mock variant: the initial
dictionary, then any number of refreshes through the producer actually
wired in the source (`mockProducer`, whose body cannot raise). -/
inductive Reachable : HospitalData → Prop
  | init : Reachable hospital_data
  | step (s : HospitalData) (t : Nat) :
      Reachable s → Reachable (extract_simple_data (mockProducer t) s)

/-- C1: if refresh runs with a producer that fails (the except branch,
src/app.py lines 89-90), the slot after the call equals the slot before
the call, for every store state and every failure message: the store
never regresses to an older or empty state on error. -/
theorem C1_non_regression_on_failure (cur : HospitalData) (msg : String) :
    extract_simple_data (Except.error msg) cur = cur := rfl

/-- C2 counterexample: the candidate `badCandidate` fails the
validation the specification prescribes (it has a negative occupancy
count), yet `extract_simple_data` installs it unchanged over the
initial slot value, so a candidate failing validation can be
installed. -/
theorem C2_counterexample_no_validation :
    specValid badCandidate = false ∧
    extract_simple_data (Except.ok badCandidate) hospital_data = badCandidate ∧
    badCandidate ≠ hospital_data :=
  ⟨by decide, rfl, by decide⟩

/-- C2 amended: refresh performs no validation of the producer output;
every candidate the producer returns successfully is installed as the
new snapshot, including candidates that fail the validation the
specification describes. Only a raising producer leaves the slot
unchanged. -/
theorem C2_amended_invalid_candidate_installed (cur cand : HospitalData)
    (_hbad : specValid cand = false) :
    extract_simple_data (Except.ok cand) cur = cand := rfl

/-- Witness for the amended C2 theorem at the concrete invalid
candidate. -/
theorem C2_witness_invalid_candidate_installed :
    specValid badCandidate = false ∧
    extract_simple_data (Except.ok badCandidate) hospital_data = badCandidate :=
  ⟨by decide,
   C2_amended_invalid_candidate_installed hospital_data badCandidate (by decide)⟩

/-- C3: for every interleaving of slot reads with the single-assignment
slot swap of src/app.py line 86, every read observes either the full
pre-refresh snapshot or the full post-refresh snapshot, never a value
mixing fields of both. -/
theorem C3_atomic_reads (pre post : HospitalData) (es : List SlotEvent)
    (r : HospitalData) (hr : r ∈ observeReads post es pre) :
    r = pre ∨ r = post := by
  induction es generalizing pre with
  | nil => simp [observeReads] at hr
  | cons e es ih =>
    cases e with
    | read =>
      simp only [observeReads, List.mem_cons] at hr
      rcases hr with h | h
      · exact Or.inl h
      · exact ih pre h
    | swap =>
      simp only [observeReads] at hr
      rcases ih post hr with h | h
      · exact Or.inr h
      · exact Or.inr h

/-- Witness for C3 on the concrete interleaving read, swap, read. -/
theorem C3_witness_atomic_reads :
    hospital_data ∈ observeReads (mock_data 5)
      [SlotEvent.read, SlotEvent.swap, SlotEvent.read] hospital_data ∧
    (hospital_data = hospital_data ∨ hospital_data = mock_data 5) :=
  ⟨by decide,
   C3_atomic_reads hospital_data (mock_data 5)
     [SlotEvent.read, SlotEvent.swap, SlotEvent.read] hospital_data (by decide)⟩

/-- C4: the fresh store, before any refresh has run, holds the
placeholder snapshot: status is the string initializing and the
facilities mapping is empty. -/
theorem C4_initial_placeholder :
    hospital_data.status = "initializing" ∧ hospital_data.hospitals = [] :=
  ⟨rfl, rfl⟩

/-- C5: whenever a snapshot is available the hospitals endpoint answers
200 with the current snapshot serialized as JSON (both variants); when
no data source has ever succeeded, the file-load variant answers 503
with a JSON body carrying an error field. -/
theorem C5_api_hospitals_contract (cur : HospitalData)
    (data : List (String × Json)) :
    api_hospitals cur = (200, hospitalDataJson cur) ∧
    api_hospitals_file (some data) = (200, Json.obj data) ∧
    (api_hospitals_file none).1 = 503 ∧
    jGet (api_hospitals_file none).2 "error"
      = some (Json.str "Hospital data not available") :=
  ⟨rfl, rfl, rfl, rfl⟩

/-- C6: for every store state both status endpoints answer 200 with a
body holding a status value, a timestamp, and a data-availability flag;
in the file-load variant status and dataAvailable are the stated
functions of the load result, in the mock variant they are the
constants ok and true. -/
theorem C6_api_status_contract (now : Nat)
    (loaded : Option (List (String × Json))) (df bf : Bool) :
    (api_status now).1 = 200 ∧
    jGet (api_status now).2 "status" = some (Json.str "ok") ∧
    jGet (api_status now).2 "timestamp" = some (Json.str (toString now)) ∧
    jGet (api_status now).2 "data_available" = some (Json.bool true) ∧
    (api_status_file loaded df bf now).1 = 200 ∧
    jGet (api_status_file loaded df bf now).2 "status"
      = some (Json.str (if loaded.isSome then "ok" else "error")) ∧
    jGet (api_status_file loaded df bf now).2 "dataAvailable"
      = some (Json.bool loaded.isSome) ∧
    jGet (api_status_file loaded df bf now).2 "lastCheck"
      = some (Json.str (toString now)) := by
  refine ⟨rfl, rfl, rfl, rfl, ?_, ?_, ?_, ?_⟩ <;> cases loaded <;> rfl

/-- Every refresh through the wired mock producer succeeds and installs
the mock snapshot of its tick, so a refresh sequence is the list of
mock snapshots at the given clock readings. -/
theorem refreshSeq_eq_map (cur : HospitalData) (ts : List Nat) :
    refreshSeq cur ts = ts.map mock_data := by
  induction ts generalizing cur with
  | nil => rfl
  | cons t ts ih => simp [refreshSeq, extract_simple_data, mockProducer, ih]

/-- C7: along any sequence of successful refreshes driven by a
non-decreasing clock, each installed snapshot carries a lastUpdated
capture time that is at least the previous snapshot's. -/
theorem C7_monotonic_timestamps (cur : HospitalData) (ts : List Nat)
    (hts : List.Chain' (· ≤ ·) ts) :
    List.Chain' (fun a b => ∃ x y,
      a.lastUpdated = some x ∧ b.lastUpdated = some y ∧ x ≤ y)
      (refreshSeq cur ts) := by
  rw [refreshSeq_eq_map, List.chain'_map]
  exact List.Chain'.imp (fun a b h => ⟨a, b, rfl, rfl, h⟩) hts

/-- Witness for C7 on the concrete non-decreasing clock readings
1, 2, 2, 5. -/
theorem C7_witness_monotonic_timestamps :
    List.Chain' (· ≤ ·) [1, 2, 2, 5] ∧
    List.Chain' (fun a b => ∃ x y,
      a.lastUpdated = some x ∧ b.lastUpdated = some y ∧ x ≤ y)
      (refreshSeq hospital_data [1, 2, 2, 5]) :=
  ⟨by simp [List.chain'_cons],
   C7_monotonic_timestamps hospital_data [1, 2, 2, 5]
     (by simp [List.chain'_cons])⟩

/-- Tick-firing times of the scheduler loop: whatever the outcomes of
the individual refreshes, the ticks fire 900 seconds apart. -/
theorem background_updater_ticks
    (outs : List (Except String HospitalData)) (t0 : Nat)
    (cur : HospitalData) :
    (background_updater outs t0 cur).2
      = (List.range outs.length).map (fun i => t0 + 900 * i) := by
  induction outs generalizing t0 cur with
  | nil => rfl
  | cons o os ih =>
    simp only [background_updater, List.length_cons, List.range_succ_eq_map,
      List.map_cons, List.map_map, ih]
    refine List.cons_eq_cons.mpr ⟨by omega, ?_⟩
    apply List.map_congr_left
    intro i _
    simp only [Function.comp_apply]
    omega

/-- C8: the scheduler is never stopped by a refresh failure. For every
sequence of tick outcomes the ticks fire 900 seconds (15 minutes)
apart; a failing tick carries the unchanged snapshot into the rest of
the run yet still schedules the next tick 900 seconds later, and a
successful tick installs its candidate. -/
theorem C8_scheduler_resilience
    (outs : List (Except String HospitalData)) (t0 : Nat)
    (cur : HospitalData) (msg : String) :
    (background_updater outs t0 cur).2
      = (List.range outs.length).map (fun i => t0 + 900 * i) ∧
    background_updater (Except.error msg :: outs) t0 cur
      = ((background_updater outs (t0 + 900) cur).1,
         t0 :: (background_updater outs (t0 + 900) cur).2) ∧
    ∀ cand : HospitalData,
      background_updater (Except.ok cand :: outs) t0 cur
        = ((background_updater outs (t0 + 900) cand).1,
           t0 :: (background_updater outs (t0 + 900) cand).2) :=
  ⟨background_updater_ticks outs t0 cur, rfl, fun _ => rfl⟩

/-- Lookup commutes with serializing every facility of an association
list. -/
theorem lookup_map_facilityJson (l : List (String × Facility)) (name : String) :
    (l.map (fun p => (p.1, facilityJson p.2))).lookup name
      = (l.lookup name).map facilityJson := by
  induction l with
  | nil => rfl
  | cons p l ih =>
    obtain ⟨k, v⟩ := p
    simp only [List.map_cons, List.lookup]
    cases name == k <;> simp [ih]

/-- C9: serializing a snapshot at the API boundary renders a facility
whose admittedInED (or activeConsults) carries the explicit
unavailable marker as the literal JSON null under that key: the key is
present (the lookup yields a value, not omission) and its value is
null, which is distinct from the number 0. -/
theorem C9_null_vs_zero (snap : HospitalData) (name : String) (f : Facility)
    (hf : snap.hospitals.lookup name = some f) :
    ∃ hs, jGet (hospitalDataJson snap) "hospitals" = some hs ∧
      jGet hs name = some (facilityJson f) ∧
      (f.admittedInED = none →
        jGet (facilityJson f) "admittedInED" = some Json.null) ∧
      (f.activeConsults = none →
        jGet (facilityJson f) "activeConsults" = some Json.null) ∧
      Json.null ≠ Json.num 0 := by
  obtain ⟨ts, lu, hosp, st⟩ := snap
  refine ⟨Json.obj (hosp.map (fun p => (p.1, facilityJson p.2))),
    ?_, ?_, ?_, ?_, fun h => Json.noConfusion h⟩
  · cases lu <;> rfl
  · simp only [jGet, lookup_map_facilityJson]
    simpa using congrArg (Option.map facilityJson) hf
  · intro h
    have hred : jGet (facilityJson f) "admittedInED"
        = some (optIntJson f.admittedInED) := rfl
    rw [hred, h]
    rfl
  · intro h
    have hred : jGet (facilityJson f) "activeConsults"
        = some (optIntJson f.activeConsults) := rfl
    rw [hred, h]
    rfl

/-- Witness for C9 at the Saskatoon City Hospital record of the mock
snapshot, whose emergency-department counts are unavailable. -/
theorem C9_witness_null_vs_zero :
    (mock_data 0).hospitals.lookup "Saskatoon City Hospital" = some sch ∧
    (∃ hs, jGet (hospitalDataJson (mock_data 0)) "hospitals" = some hs ∧
      jGet hs "Saskatoon City Hospital" = some (facilityJson sch) ∧
      (sch.admittedInED = none →
        jGet (facilityJson sch) "admittedInED" = some Json.null) ∧
      (sch.activeConsults = none →
        jGet (facilityJson sch) "activeConsults" = some Json.null) ∧
      Json.null ≠ Json.num 0) :=
  ⟨by decide,
   C9_null_vs_zero (mock_data 0) "Saskatoon City Hospital" sch (by decide)⟩

/-- C10: every reachable slot value of the mock variant is either the
initializing placeholder with an empty facilities mapping or a success
snapshot listing exactly the four fixed facilities; in particular the
status error is never observable, because the wired producer cannot
raise. -/
theorem C10_reachable_invariant (s : HospitalData) (hs : Reachable s) :
    ((s.status = "initializing" ∧ s.hospitals = []) ∨
     (s.status = "success" ∧ s.hospitals.map Prod.fst =
       ["Royal University Hospital", "St. Paul\x27s Hospital",
        "Jim Pattison\x27s Children Hospital", "Saskatoon City Hospital"])) ∧
    s.status ≠ "error" := by
  induction hs with
  | init => exact ⟨Or.inl ⟨rfl, rfl⟩, by decide⟩
  | step s t _ _ =>
    refine ⟨Or.inr ⟨rfl, rfl⟩, fun h => ?_⟩
    have h2 : ("success" : String) = "error" := h
    exact absurd h2 (by decide)

/-- Witness for C10 at the initial slot value. -/
theorem C10_witness_reachable_invariant :
    Reachable hospital_data ∧
    (((hospital_data.status = "initializing" ∧ hospital_data.hospitals = []) ∨
      (hospital_data.status = "success" ∧ hospital_data.hospitals.map Prod.fst =
        ["Royal University Hospital", "St. Paul\x27s Hospital",
         "Jim Pattison\x27s Children Hospital", "Saskatoon City Hospital"])) ∧
     hospital_data.status ≠ "error") :=
  ⟨Reachable.init, C10_reachable_invariant hospital_data Reachable.init⟩

